import Mathlib

/- Shallow embedding of the congestion-aware routing core of the
Traffic-Optimization repository (src/traffic_core/).  Python floats are
modelled as rationals, Python dicts as explicit lookup functions or
association lists, and `random.uniform` draws as explicit noise
parameters constrained to the stated ranges. -/

set_option maxHeartbeats 1000000

/- ------------------------------------------------------------------
Road-category tables (src/traffic_core/utils.py lines 5-15 and
src/traffic_core/congestion_simulator.py lines 9-26).  Each function
models `TABLE.get(road_type, default)` with the default used at the
call sites: `SPEED_LIMITS.get(road_type, 30)` (utils.py line 20),
`CONGESTION_WEIGHTS.get(road_type, 0.5)` (congestion_simulator.py
line 82), `DELAY_WEIGHTS.get(road_type, 30)` (utils.py line 45).
------------------------------------------------------------------ -/

def SPEED_LIMITS_get : String → ℚ
  | "motorway" => 90
  | "motorway_link" => 60
  | "trunk" => 80
  | "trunk_link" => 50
  | "primary" => 60
  | "primary_link" => 50
  | "secondary" => 50
  | "secondary_link" => 40
  | "tertiary" => 40
  | "tertiary_link" => 30
  | "residential" => 30
  | "unclassified" => 40
  | "service" => 20
  | _ => 30

def CONGESTION_WEIGHTS_get : String → ℚ
  | "motorway" => 0.15
  | "motorway_link" => 0.2
  | "trunk" => 0.25
  | "trunk_link" => 0.3
  | "primary" => 0.35
  | "primary_link" => 0.4
  | "secondary" => 0.45
  | "secondary_link" => 0.5
  | "tertiary" => 0.55
  | "tertiary_link" => 0.6
  | "residential" => 0.65
  | "unclassified" => 0.5
  | "service" => 0.7
  | _ => 0.5

def DELAY_WEIGHTS_get : String → ℚ
  | "motorway" => 2
  | "motorway_link" => 5
  | "trunk" => 8
  | "trunk_link" => 10
  | "primary" => 15
  | "primary_link" => 20
  | "secondary" => 25
  | "secondary_link" => 30
  | "tertiary" => 35
  | "residential" => 40
  | _ => 30

/-- Keys present in the SPEED_LIMITS / CONGESTION_WEIGHTS tables (the full
set of known road categories; DELAY_WEIGHTS uses a subset of these keys). -/
def knownRoadCategories : List String :=
  ["motorway", "motorway_link", "trunk", "trunk_link", "primary", "primary_link",
   "secondary", "secondary_link", "tertiary", "tertiary_link", "residential",
   "unclassified", "service"]

/- ------------------------------------------------------------------
Edge data.  A networkx edge-data dict; a field is `none` when the key
is missing, mirroring `d.get(key, default)`.
------------------------------------------------------------------ -/

structure Edge where
  length : Option ℚ
  congestion : Option ℚ
  road_type : Option String

/-- Congestion-to-speed step factor, the inner branch of
`get_realistic_speed` (utils.py lines 23-30). -/
def speed_reduction (congestion : ℚ) : ℚ :=
  if congestion < 0.3 then 1
  else if congestion < 0.6 then 0.7
  else if congestion < 0.8 then 0.5
  else 0.3

/-- `get_realistic_speed(edge_data, congestion)` (utils.py lines 17-35):
category speed limit derated by the congestion step factor, floored at
5 km/h, converted to m/s by dividing by 3.6. -/
def get_realistic_speed (edge_data : Edge) (congestion : ℚ) : ℚ :=
  let road_type := edge_data.road_type.getD "residential"
  let base_speed_kmh := SPEED_LIMITS_get road_type
  let effective_speed_kmh := base_speed_kmh * speed_reduction congestion
  let effective_speed_kmh := max 5 effective_speed_kmh
  effective_speed_kmh / 3.6

/-- `realistic_weight(u, v, d)` (utils.py lines 37-49): travel-time edge
cost in seconds.  `u`, `v` are the (unused) endpoint node ids. -/
def realistic_weight (u v : ℤ) (d : Edge) : ℚ :=
  let length := d.length.getD 100
  let congestion := d.congestion.getD 0.5
  let effective_speed_ms := get_realistic_speed d congestion
  let road_type := d.road_type.getD "residential"
  let intersection_delay := DELAY_WEIGHTS_get road_type
  let traffic_light_delay := intersection_delay * (0.5 + congestion)
  length / max 0.1 effective_speed_ms + traffic_light_delay

lemma SPEED_LIMITS_get_nonneg (road_type : String) : 0 ≤ SPEED_LIMITS_get road_type := by
  unfold SPEED_LIMITS_get
  split <;> norm_num

lemma DELAY_WEIGHTS_get_ge_two (road_type : String) : (2 : ℚ) ≤ DELAY_WEIGHTS_get road_type := by
  unfold DELAY_WEIGHTS_get
  split <;> norm_num

lemma speed_reduction_antitone {x y : ℚ} (h : x ≤ y) : speed_reduction y ≤ speed_reduction x := by
  unfold speed_reduction
  split_ifs <;> linarith

lemma get_realistic_speed_antitone (e : Edge) {x y : ℚ} (h : x ≤ y) :
    get_realistic_speed e y ≤ get_realistic_speed e x := by
  unfold get_realistic_speed
  have hB := SPEED_LIMITS_get_nonneg (e.road_type.getD "residential")
  have hred := speed_reduction_antitone h
  have hmul : SPEED_LIMITS_get (e.road_type.getD "residential") * speed_reduction y ≤
      SPEED_LIMITS_get (e.road_type.getD "residential") * speed_reduction x :=
    mul_le_mul_of_nonneg_left hred hB
  have hmax : max 5 (SPEED_LIMITS_get (e.road_type.getD "residential") * speed_reduction y) ≤
      max 5 (SPEED_LIMITS_get (e.road_type.getD "residential") * speed_reduction x) :=
    max_le_max le_rfl hmul
  rw [div_le_div_iff₀ (by norm_num) (by norm_num)]
  nlinarith [hmax]

/-- C1: for every edge with nonnegative length and any road category, and
congestion values 0 ≤ c ≤ c' ≤ 1, the edge cost `realistic_weight` is
strictly positive and monotonically non-decreasing in congestion. -/
theorem realistic_weight_pos_and_monotone (u v : ℤ) (len : ℚ) (rt : Option String)
    (c c' : ℚ) (hlen : 0 ≤ len) (hc0 : 0 ≤ c) (hcc' : c ≤ c') (hc1 : c' ≤ 1) :
    0 < realistic_weight u v ⟨some len, some c, rt⟩ ∧
    realistic_weight u v ⟨some len, some c, rt⟩ ≤ realistic_weight u v ⟨some len, some c', rt⟩ := by
  have hrt : (Edge.mk (some len) (some c) rt).road_type = (Edge.mk (some len) (some c') rt).road_type := rfl
  unfold realistic_weight
  simp only [Option.getD_some]
  have hdelay := DELAY_WEIGHTS_get_ge_two (rt.getD "residential")
  have hspd : get_realistic_speed ⟨some len, some c', rt⟩ c' ≤
      get_realistic_speed ⟨some len, some c, rt⟩ c := by
    have h1 : get_realistic_speed ⟨some len, some c', rt⟩ c' =
        get_realistic_speed ⟨some len, some c, rt⟩ c' := by
      unfold get_realistic_speed
      rfl
    rw [h1]
    exact get_realistic_speed_antitone _ hcc'
  have hden1 : (0 : ℚ) < max 0.1 (get_realistic_speed ⟨some len, some c, rt⟩ c) :=
    lt_of_lt_of_le (by norm_num) (le_max_left _ _)
  have hden2 : (0 : ℚ) < max 0.1 (get_realistic_speed ⟨some len, some c', rt⟩ c') :=
    lt_of_lt_of_le (by norm_num) (le_max_left _ _)
  constructor
  · have hterm1 : 0 ≤ len / max 0.1 (get_realistic_speed ⟨some len, some c, rt⟩ c) :=
      div_nonneg hlen (le_of_lt hden1)
    have hterm2 : (0 : ℚ) < DELAY_WEIGHTS_get (rt.getD "residential") * (0.5 + c) := by
      have : (0 : ℚ) < 0.5 + c := by linarith
      nlinarith
    linarith
  · have hmaxle : max 0.1 (get_realistic_speed ⟨some len, some c', rt⟩ c') ≤
        max 0.1 (get_realistic_speed ⟨some len, some c, rt⟩ c) :=
      max_le_max le_rfl hspd
  -- length / (bigger denominator) ≤ length / (smaller denominator)
    have hdiv : len / max 0.1 (get_realistic_speed ⟨some len, some c, rt⟩ c) ≤
        len / max 0.1 (get_realistic_speed ⟨some len, some c', rt⟩ c') := by
      rw [div_le_div_iff₀ hden1 hden2]
      exact mul_le_mul_of_nonneg_left hmaxle hlen
    have hdel : DELAY_WEIGHTS_get (rt.getD "residential") * (0.5 + c) ≤
        DELAY_WEIGHTS_get (rt.getD "residential") * (0.5 + c') := by
      have : (0 : ℚ) ≤ DELAY_WEIGHTS_get (rt.getD "residential") := by linarith
      nlinarith
    linarith

/-- C1 witness: a concrete instantiation (length 100 m, primary road,
congestion 1/4 ≤ 3/4). -/
theorem realistic_weight_pos_and_monotone_witness :
    ((0 : ℚ) ≤ 100 ∧ (0 : ℚ) ≤ 1/4 ∧ (1/4 : ℚ) ≤ 3/4 ∧ (3/4 : ℚ) ≤ 1) ∧
    (0 < realistic_weight 0 1 ⟨some 100, some (1/4), some "primary"⟩ ∧
     realistic_weight 0 1 ⟨some 100, some (1/4), some "primary"⟩ ≤
       realistic_weight 0 1 ⟨some 100, some (3/4), some "primary"⟩) :=
  ⟨⟨by norm_num, by norm_num, by norm_num, by norm_num⟩,
   realistic_weight_pos_and_monotone 0 1 100 (some "primary") (1/4) (3/4)
     (by norm_num) (by norm_num) (by norm_num) (by norm_num)⟩

/- ------------------------------------------------------------------
C5: defaults for unknown road categories.
------------------------------------------------------------------ -/

/-- C5 counterexample: the claim says an unknown category ("footway" is in
no table) uses a 40-second intersection delay constant in the edge cost
function; the code's `DELAY_WEIGHTS.get(road_type, 30)` uses 30, so a
zero-length zero-congestion edge costs 30·(0.5+0) = 15, not 40·(0.5+0) = 20. -/
theorem unknown_category_delay_counterexample :
    DELAY_WEIGHTS_get "footway" = 30 ∧
    realistic_weight 0 1 ⟨some 0, some 0, some "footway"⟩ = 15 ∧
    realistic_weight 0 1 ⟨some 0, some 0, some "footway"⟩ ≠ 40 * (0.5 + 0) := by
  have h1 : SPEED_LIMITS_get "footway" = 30 := rfl
  have h2 : DELAY_WEIGHTS_get "footway" = 30 := rfl
  refine ⟨rfl, ?_, ?_⟩ <;>
    norm_num [realistic_weight, get_realistic_speed, speed_reduction, h1, h2, max_def]

/-- C5 amended: for every road category string not in the known category
tables, the model uses a 30 km/h speed limit, a 0.5 base congestion
weight, and a 30-second (not 40-second) intersection delay constant, so
the edge cost is `length / effective_speed + 30·(0.5 + congestion)`. -/
theorem unknown_category_defaults (c : String) (hc : c ∉ knownRoadCategories) :
    SPEED_LIMITS_get c = 30 ∧ CONGESTION_WEIGHTS_get c = 0.5 ∧ DELAY_WEIGHTS_get c = 30 ∧
    ∀ (len cong : ℚ) (u v : ℤ),
      realistic_weight u v ⟨some len, some cong, some c⟩ =
        len / max 0.1 (get_realistic_speed ⟨some len, some cong, some c⟩ cong) +
          30 * (0.5 + cong) := by
  simp only [knownRoadCategories, List.mem_cons, List.not_mem_nil, or_false, not_or] at hc
  obtain ⟨h1, h2, h3, h4, h5, h6, h7, h8, h9, h10, h11, h12, h13⟩ := hc
  have hs : SPEED_LIMITS_get c = 30 := by
    unfold SPEED_LIMITS_get
    split
    all_goals first | rfl | (exfalso; simp_all)
  have hw : CONGESTION_WEIGHTS_get c = 0.5 := by
    unfold CONGESTION_WEIGHTS_get
    split
    all_goals first | rfl | (exfalso; simp_all)
  have hd : DELAY_WEIGHTS_get c = 30 := by
    unfold DELAY_WEIGHTS_get
    split
    all_goals first | rfl | (exfalso; simp_all)
  refine ⟨hs, hw, hd, ?_⟩
  intro len cong u v
  unfold realistic_weight
  simp only [Option.getD_some, hd]

/-- C5 witness: "footway" is not a known category, and the defaults hold
for it. -/
theorem unknown_category_defaults_witness :
    "footway" ∉ knownRoadCategories ∧
    (SPEED_LIMITS_get "footway" = 30 ∧ CONGESTION_WEIGHTS_get "footway" = 0.5 ∧
     DELAY_WEIGHTS_get "footway" = 30 ∧
     ∀ (len cong : ℚ) (u v : ℤ),
       realistic_weight u v ⟨some len, some cong, some "footway"⟩ =
         len / max 0.1 (get_realistic_speed ⟨some len, some cong, some "footway"⟩ cong) +
           30 * (0.5 + cong)) :=
  ⟨by decide, unknown_category_defaults "footway" (by decide)⟩

/- ------------------------------------------------------------------
`calculate_time_score(travel_time, congestion, hour, max_travel_time)`
(src/traffic_core/smart_planner.py lines 192-213).  `travel_time` is in
minutes, `congestion` is a percentage (avg_congestion × 100);
`max_travel_time` is `None` or a number, and Python's
`if max_travel_time and ...` treats a supplied 0 as falsy.
------------------------------------------------------------------ -/

def calculate_time_score (travel_time congestion : ℚ) (hour : ℤ)
    (max_travel_time : Option ℚ) : ℚ :=
  let time_score := 100 / (travel_time + 1)
  let congestion_penalty := congestion * 0.5
  let time_penalty : ℚ :=
    if hour ≤ 5 ∨ 23 ≤ hour then 20
    else if hour ≤ 7 ∨ 21 ≤ hour then 10
    else 0
  let constraint_bonus : ℚ :=
    match max_travel_time with
    | some m => if m ≠ 0 ∧ travel_time ≤ m then 30 else 0
    | none => 0
  let final_score := time_score - congestion_penalty - time_penalty + constraint_bonus
  max 0 final_score

/-- C2 counterexample: at travel_time = 100 min, congestion = 100 %,
hour = 3, no max_travel_time, the claimed formula gives
100/101 − 50 − 20 + 0 < 0, but the function returns 0 (it clamps at
zero), so the returned score does not equal the formula. -/
theorem calculate_time_score_formula_counterexample :
    calculate_time_score 100 100 3 none = 0 ∧
    calculate_time_score 100 100 3 none ≠ 100 / (100 + 1) - 0.5 * 100 - 20 + 0 := by
  constructor <;> norm_num [calculate_time_score]

/-- C2 amended: the score returned by the departure-time optimizer is the
claimed formula `100/(time+1) − 0.5·congestion_pct − time_of_day_penalty
+ constraint_bonus` clamped below at 0 (never negative), where the
constraint bonus of 30 additionally requires the supplied
max_travel_time to be nonzero (Python truthiness). -/
theorem calculate_time_score_eq_clamped_formula (travel_time congestion : ℚ)
    (hour : ℤ) (max_travel_time : Option ℚ) :
    calculate_time_score travel_time congestion hour max_travel_time =
      max 0 (100 / (travel_time + 1) - 0.5 * congestion -
        (if hour ≤ 5 ∨ 23 ≤ hour then 20 else if hour ≤ 7 ∨ 21 ≤ hour then 10 else 0) +
        (match max_travel_time with
         | some m => if m ≠ 0 ∧ travel_time ≤ m then (30 : ℚ) else 0
         | none => 0)) := by
  unfold calculate_time_score
  ring_nf

/-- C10: `calculate_time_score` returns the maximum of 0 and the scoring
formula, hence the returned score is never negative even when the
penalties drive the formula below zero. -/
theorem calculate_time_score_clamped_nonneg (travel_time congestion : ℚ)
    (hour : ℤ) (max_travel_time : Option ℚ) :
    0 ≤ calculate_time_score travel_time congestion hour max_travel_time ∧
    (calculate_time_score travel_time congestion hour max_travel_time =
        100 / (travel_time + 1) - congestion * 0.5 -
          (if hour ≤ 5 ∨ 23 ≤ hour then (20 : ℚ)
           else if hour ≤ 7 ∨ 21 ≤ hour then 10 else 0) +
          (match max_travel_time with
           | some m => if m ≠ 0 ∧ travel_time ≤ m then (30 : ℚ) else 0
           | none => 0) ∨
     calculate_time_score travel_time congestion hour max_travel_time = 0) := by
  have key : calculate_time_score travel_time congestion hour max_travel_time =
      max 0 (100 / (travel_time + 1) - congestion * 0.5 -
        (if hour ≤ 5 ∨ 23 ≤ hour then (20 : ℚ)
         else if hour ≤ 7 ∨ 21 ≤ hour then 10 else 0) +
        (match max_travel_time with
         | some m => if m ≠ 0 ∧ travel_time ≤ m then (30 : ℚ) else 0
         | none => 0)) := rfl
  rw [key]
  clear key
  refine ⟨le_max_left _ _, ?_⟩
  rcases le_total (100 / (travel_time + 1) - congestion * 0.5 -
      (if hour ≤ 5 ∨ 23 ≤ hour then (20 : ℚ)
       else if hour ≤ 7 ∨ 21 ≤ hour then 10 else 0) +
      (match max_travel_time with
       | some m => if m ≠ 0 ∧ travel_time ≤ m then (30 : ℚ) else 0
       | none => 0)) 0 with hF | hF
  · exact Or.inr (max_eq_left hF)
  · exact Or.inl (max_eq_right hF)

/- ------------------------------------------------------------------
Congestion simulator (src/traffic_core/congestion_simulator.py).
The `random.uniform(lo, hi)` draws are modelled as explicit noise
parameters; `Noise.Valid` states each draw lies in its stated range.
------------------------------------------------------------------ -/

structure Noise where
  weekday_morning : ℚ
  weekday_evening : ℚ
  weekday_lunch : ℚ
  weekday_night : ℚ
  weekend_daytime : ℚ
  weekend_evening : ℚ
  weekend_night : ℚ
  jitter : ℚ

/-- The ranges of the `random.uniform` calls in `get_realistic_congestion`
(congestion_simulator.py lines 87-102). -/
def Noise.Valid (n : Noise) : Prop :=
  0.25 ≤ n.weekday_morning ∧ n.weekday_morning ≤ 0.4 ∧
  0.3 ≤ n.weekday_evening ∧ n.weekday_evening ≤ 0.45 ∧
  0.1 ≤ n.weekday_lunch ∧ n.weekday_lunch ≤ 0.2 ∧
  0.25 ≤ n.weekday_night ∧ n.weekday_night ≤ 0.4 ∧
  0.15 ≤ n.weekend_daytime ∧ n.weekend_daytime ≤ 0.25 ∧
  0.1 ≤ n.weekend_evening ∧ n.weekend_evening ≤ 0.2 ∧
  0.2 ≤ n.weekend_night ∧ n.weekend_night ≤ 0.35 ∧
  -0.08 ≤ n.jitter ∧ n.jitter ≤ 0.08

/-- `get_realistic_congestion(edge_data, hour, day_type)`
(congestion_simulator.py lines 79-103): rule-based congestion estimate,
clamped to [0.05, 0.95]. -/
def get_realistic_congestion (edge_data : Edge) (hour : Option ℤ) (day_type : String)
    (n : Noise) : ℚ :=
  let road_type := edge_data.road_type.getD "residential"
  let base := CONGESTION_WEIGHTS_get road_type
  let base :=
    match hour with
    | none => base
    | some h =>
      if day_type = "weekday" then
        if 7 ≤ h ∧ h ≤ 9 then base + n.weekday_morning
        else if 17 ≤ h ∧ h ≤ 19 then base + n.weekday_evening
        else if 12 ≤ h ∧ h ≤ 14 then base + n.weekday_lunch
        else if 0 ≤ h ∧ h ≤ 5 then base - n.weekday_night
        else base
      else
        if 11 ≤ h ∧ h ≤ 16 then base + n.weekend_daytime
        else if 19 ≤ h ∧ h ≤ 22 then base + n.weekend_evening
        else if 0 ≤ h ∧ h ≤ 6 then base - n.weekend_night
        else base
  let base := base + n.jitter
  max 0.05 (min 0.95 base)

/-- C6: for every road category, hour (or absent hour), day type and noise
draws within their stated ranges, the rule-based congestion estimate lies
in the closed interval [0.05, 0.95]. -/
theorem get_realistic_congestion_in_range (edge_data : Edge) (hour : Option ℤ)
    (day_type : String) (n : Noise) (hn : n.Valid) :
    0.05 ≤ get_realistic_congestion edge_data hour day_type n ∧
    get_realistic_congestion edge_data hour day_type n ≤ 0.95 := by
  unfold get_realistic_congestion
  constructor
  · exact le_max_left _ _
  · exact max_le (by norm_num) (min_le_left _ _)

/-- C6 witness: concrete valid noise (midpoints of each range), residential
edge at weekday hour 8. -/
theorem get_realistic_congestion_in_range_witness :
    (Noise.mk 0.3 0.35 0.15 0.3 0.2 0.15 0.25 0).Valid ∧
    (0.05 ≤ get_realistic_congestion ⟨none, none, none⟩ (some 8) "weekday"
        (Noise.mk 0.3 0.35 0.15 0.3 0.2 0.15 0.25 0) ∧
     get_realistic_congestion ⟨none, none, none⟩ (some 8) "weekday"
        (Noise.mk 0.3 0.35 0.15 0.3 0.2 0.15 0.25 0) ≤ 0.95) :=
  ⟨by constructor <;> norm_num [Noise.Valid],
   get_realistic_congestion_in_range ⟨none, none, none⟩ (some 8) "weekday"
     (Noise.mk 0.3 0.35 0.15 0.3 0.2 0.15 0.25 0)
     (by constructor <;> norm_num [Noise.Valid])⟩

/- ------------------------------------------------------------------
Historical data store.  `historical_data["hourly_patterns"]` maps an
hour key to a most-recent-last list of records
{timestamp, avg_congestion, day_type}; the JSON file persistence is an
external collaborator and is not modelled.
------------------------------------------------------------------ -/

structure HistRecord where
  timestamp : String
  avg_congestion : ℚ
  day_type : String

/-- Association-list lookup, modelling a Python dict read `d[k]` guarded
by `k in d`. -/
def dict_find {α β : Type} [DecidableEq α] : List (α × β) → α → Option β
  | [], _ => none
  | (k, v) :: rest, key => if k = key then some v else dict_find rest key

/-- The per-hour list update of `update_historical_data`
(congestion_simulator.py lines 49-61): append the new record, then keep
only the last 100 records.  The surrounding dict bookkeeping and the
JSON save are external persistence. -/
def update_hour_records (records : List HistRecord) (r : HistRecord) : List HistRecord :=
  let records := records ++ [r]
  if records.length > 100 then records.drop (records.length - 100) else records

lemma update_hour_records_last100 (l : List HistRecord) (r : HistRecord) :
    update_hour_records (l.drop (l.length - 100)) r =
      (l ++ [r]).drop ((l ++ [r]).length - 100) := by
  unfold update_hour_records
  by_cases hn : l.length ≤ 100
  · have h0 : l.length - 100 = 0 := by omega
    rw [h0, List.drop_zero]
    by_cases h1 : (l ++ [r]).length > 100
    · simp only [if_pos h1]
    · simp only [if_neg h1]
      have : (l ++ [r]).length - 100 = 0 := by
        simp only [List.length_append, List.length_singleton] at h1 ⊢
        omega
      rw [this, List.drop_zero]
  · have hlen : (l.drop (l.length - 100)).length = 100 := by
      rw [List.length_drop]
      omega
    have hcond : (l.drop (l.length - 100) ++ [r]).length > 100 := by
      rw [List.length_append, hlen]
      simp
    rw [if_pos hcond]
    rw [List.length_append, hlen]
    simp only [List.length_singleton]
    have hstep : (100 + 1 - 100 : ℕ) = 1 := by norm_num
    rw [hstep]
    rw [List.drop_append_eq_append_drop, List.drop_drop]
    have h1 : l.length - 100 + 1 = l.length - 99 := by omega
    have h2 : (1 : ℕ) - (l.drop (l.length - 100)).length = 0 := by
      rw [hlen]
    rw [h1, h2, List.drop_zero]
    rw [List.drop_append_eq_append_drop]
    have h3 : (l ++ [r]).length - 100 = l.length - 99 := by
      rw [List.length_append]
      simp only [List.length_singleton]
      omega
    have h4 : l.length - 99 - l.length = 0 := by omega
    rw [h3, h4, List.drop_zero]

/-- C8: starting from an empty per-hour list, after any sequence of
sequential appends (in particular 150 of them) the stored list contains
at most 100 entries, and it is exactly the suffix of the 100 most
recently appended records (oldest dropped). -/
theorem update_hour_records_capped (rs : List HistRecord) :
    (rs.foldl update_hour_records []).length ≤ 100 ∧
    rs.foldl update_hour_records [] = rs.drop (rs.length - 100) := by
  have key : ∀ l : List HistRecord, l.foldl update_hour_records [] = l.drop (l.length - 100) := by
    intro l
    induction l using List.reverseRecOn with
    | nil => simp
    | append_singleton l r ih =>
      rw [List.foldl_append]
      simp only [List.foldl_cons, List.foldl_nil]
      rw [ih]
      exact update_hour_records_last100 l r
  refine ⟨?_, key rs⟩
  rw [key rs, List.length_drop]
  omega

/-- Arithmetic mean of a list of rationals (`np.mean`). -/
def listMean (l : List ℚ) : ℚ := l.sum / l.length

/-- `predict_future_congestion(hour, day_type, days_ahead=0)`
(congestion_simulator.py lines 109-129).  `hourly_patterns` models
`historical_data["hourly_patterns"]` (hour key → most-recent-last record
list); the rule-based estimate is taken at edge_data `{}` (all keys
missing). -/
def predict_future_congestion (hourly_patterns : List (ℤ × List HistRecord))
    (hour : ℤ) (day_type : String) (n : Noise) : ℚ :=
  let base_prediction := get_realistic_congestion ⟨none, none, none⟩ (some hour) day_type n
  let base_prediction :=
    match dict_find hourly_patterns hour with
    | none => base_prediction
    | some hour_data =>
      let similar_days := hour_data.filter (fun d => decide (d.day_type = day_type))
      if similar_days.isEmpty then base_prediction
      else (base_prediction +
        listMean ((similar_days.drop (similar_days.length - 10)).map
          HistRecord.avg_congestion)) / 2
  let base_prediction :=
    if day_type = "weekend" ∧ 11 ≤ hour ∧ hour ≤ 16 then base_prediction + 0.1
    else base_prediction
  max 0.05 (min 0.95 base_prediction)

/-- C7: `predict_future_congestion` equals: the rule-based estimate,
replaced — when records for that hour with matching day_type exist — by
the 50/50 blend of the estimate with the average avg_congestion of the
most recent at most 10 matching records, plus 0.1 for weekend hours
11–16, clamped to [0.05, 0.95]. -/
theorem predict_future_congestion_spec (hourly_patterns : List (ℤ × List HistRecord))
    (hour : ℤ) (day_type : String) (n : Noise) :
    predict_future_congestion hourly_patterns hour day_type n =
      max 0.05 (min 0.95
        ((let est := get_realistic_congestion ⟨none, none, none⟩ (some hour) day_type n
          let matching := ((dict_find hourly_patterns hour).getD []).filter
            (fun d => decide (d.day_type = day_type))
          if matching.isEmpty then est
          else (est + listMean ((matching.drop (matching.length - 10)).map
            HistRecord.avg_congestion)) / 2) +
         (if day_type = "weekend" ∧ 11 ≤ hour ∧ hour ≤ 16 then 0.1 else 0))) := by
  unfold predict_future_congestion
  cases h : dict_find hourly_patterns hour with
  | none =>
    simp only [h, Option.getD_none, List.filter_nil, List.isEmpty_nil, if_true]
    split_ifs <;> ring_nf
  | some hour_data =>
    simp only [h, Option.getD_some]
    split_ifs <;> ring_nf

/- ------------------------------------------------------------------
Candidate departure hours
(src/traffic_core/smart_planner.py lines 84-94).
------------------------------------------------------------------ -/

/-- Python `range(a, b)` over integers: `[a, a+1, ..., b-1]`. -/
def pythonRange (a b : ℤ) : List ℤ :=
  (List.range (b - a).toNat).map (fun i : ℕ => a + (i : ℤ))

/-- The candidate hour list of `find_best_time_in_window`
(smart_planner.py lines 84-94): every even hour in
`range(window_start, window_end + 1)`, with `window_start` prepended and
`window_end` appended when not already present. -/
def hoursToCheck (window_start window_end : ℤ) : List ℤ :=
  let hours_to_check := (pythonRange window_start (window_end + 1)).filter
    (fun hour => decide (hour % 2 = 0))
  let hours_to_check :=
    if window_start ∈ hours_to_check then hours_to_check
    else window_start :: hours_to_check
  if window_end ∈ hours_to_check then hours_to_check
  else hours_to_check ++ [window_end]

lemma mem_pythonRange {a b h : ℤ} : h ∈ pythonRange a b ↔ a ≤ h ∧ h < b := by
  unfold pythonRange
  simp only [List.mem_map, List.mem_range]
  constructor
  · rintro ⟨i, hi, rfl⟩
    omega
  · rintro ⟨h1, h2⟩
    exact ⟨(h - a).toNat, by omega, by omega⟩

lemma pythonRange_nodup (a b : ℤ) : (pythonRange a b).Nodup := by
  unfold pythonRange
  apply List.Nodup.map
  · intro i j hij
    dsimp only at hij
    omega
  · exact List.nodup_range _

/-- C4: for every window with window_start < window_end, the candidate
hours are exactly the even hours of [window_start, window_end] together
with the two boundary hours, and no hour appears twice. -/
theorem hoursToCheck_exact (window_start window_end : ℤ)
    (hw : window_start < window_end) :
    (hoursToCheck window_start window_end).Nodup ∧
    ∀ h : ℤ, h ∈ hoursToCheck window_start window_end ↔
      ((window_start ≤ h ∧ h ≤ window_end ∧ h % 2 = 0) ∨
       h = window_start ∨ h = window_end) := by
  have hev : ∀ h : ℤ, h ∈ (pythonRange window_start (window_end + 1)).filter
      (fun hour => decide (hour % 2 = 0)) ↔
      (window_start ≤ h ∧ h ≤ window_end ∧ h % 2 = 0) := by
    intro h
    simp only [List.mem_filter, mem_pythonRange, decide_eq_true_eq]
    omega
  have hnd : ((pythonRange window_start (window_end + 1)).filter
      (fun hour => decide (hour % 2 = 0))).Nodup :=
    (pythonRange_nodup _ _).filter _
  unfold hoursToCheck
  by_cases h1 : window_start ∈ (pythonRange window_start (window_end + 1)).filter
      (fun hour => decide (hour % 2 = 0))
  · simp only [if_pos h1]
    by_cases h2 : window_end ∈ (pythonRange window_start (window_end + 1)).filter
        (fun hour => decide (hour % 2 = 0))
    · simp only [if_pos h2]
      refine ⟨hnd, fun h => ?_⟩
      rw [hev h]
      constructor
      · tauto
      · rintro (hc | rfl | rfl)
        · exact hc
        · exact (hev _).mp h1
        · exact (hev _).mp h2
    · simp only [if_neg h2]
      refine ⟨?_, fun h => ?_⟩
      · exact hnd.append (List.nodup_singleton _) (List.disjoint_singleton.mpr h2)
      · simp only [List.mem_append, List.mem_singleton, hev h]
        constructor
        · tauto
        · rintro (hc | rfl | rfl)
          · exact Or.inl hc
          · exact Or.inl ((hev _).mp h1)
          · exact Or.inr rfl
  · simp only [if_neg h1]
    by_cases h2 : window_end ∈ window_start :: (pythonRange window_start (window_end + 1)).filter
        (fun hour => decide (hour % 2 = 0))
    · simp only [if_pos h2]
      have h2' : window_end ∈ (pythonRange window_start (window_end + 1)).filter
          (fun hour => decide (hour % 2 = 0)) := by
        rcases List.mem_cons.mp h2 with heq | hm
        · exact absurd heq (by omega)
        · exact hm
      refine ⟨List.nodup_cons.mpr ⟨h1, hnd⟩, fun h => ?_⟩
      simp only [List.mem_cons, hev h]
      constructor
      · tauto
      · rintro (hc | rfl | rfl)
        · exact Or.inr hc
        · exact Or.inl rfl
        · exact Or.inr ((hev _).mp h2')
    · simp only [if_neg h2]
      have h2cons : window_end ∉ ([window_start] : List ℤ) ∧
          window_end ∉ (pythonRange window_start (window_end + 1)).filter
            (fun hour => decide (hour % 2 = 0)) := by
        constructor
        · simp only [List.mem_singleton]
          omega
        · intro hm
          exact h2 (List.mem_cons_of_mem _ hm)
      refine ⟨?_, fun h => ?_⟩
      · refine (List.nodup_cons.mpr ⟨h1, hnd⟩).append (List.nodup_singleton _) ?_
        rw [List.disjoint_singleton]
        exact h2
      · simp only [List.mem_append, List.mem_cons, List.mem_singleton, hev h]
        tauto

/-- C4 witness: the window [8, 9] (both bounds odd/even mix). -/
theorem hoursToCheck_exact_witness :
    (8 : ℤ) < 9 ∧
    ((hoursToCheck 8 9).Nodup ∧
     ∀ h : ℤ, h ∈ hoursToCheck 8 9 ↔
       (((8 : ℤ) ≤ h ∧ h ≤ 9 ∧ h % 2 = 0) ∨ h = 8 ∨ h = 9)) :=
  ⟨by norm_num, hoursToCheck_exact 8 9 (by norm_num)⟩

/- ------------------------------------------------------------------
Departure-time optimizer
(src/traffic_core/smart_planner.py lines 31-130).  The routing of one
candidate hour (`get_optimized_route`, which copies the graph, applies
predicted congestion and avoidance weights, and runs shortest path) is
abstracted as an oracle `route : hour → Option RouteData`; `none` models
both a failed route and the per-hour `except` path.
------------------------------------------------------------------ -/

structure RouteData where
  total_time_min : ℚ
  avg_congestion : ℚ

/-- The per-candidate best-time dict of `find_best_time_in_window`
(smart_planner.py lines 118-124); `time_display` is presentation only
and omitted. -/
structure BestTime where
  hour : ℤ
  travel_time_min : ℚ
  congestion_percent : ℚ
  score : ℚ

/-- Python `if max_travel_time and travel_time > max_travel_time`
(smart_planner.py line 110): `None` and `0` are falsy. -/
def truthy_and_exceeds (max_travel_time : Option ℚ) (travel_time : ℚ) : Bool :=
  match max_travel_time with
  | some m => decide (m ≠ 0 ∧ m < travel_time)
  | none => false

/-- One iteration of the candidate-hour loop of `find_best_time_in_window`
(smart_planner.py lines 98-128), carrying the running best (Python starts
from `best_time = None`, `best_score = -inf`; since every score is ≥ 0 a
first surviving candidate always replaces `None`). -/
def find_best_step (route : ℤ → Option RouteData) (max_travel_time : Option ℚ)
    (best : Option BestTime) (hour : ℤ) : Option BestTime :=
  match route hour with
  | none => best
  | some route_data =>
    let travel_time := route_data.total_time_min
    let congestion := route_data.avg_congestion * 100
    if truthy_and_exceeds max_travel_time travel_time then best
    else
      let score := calculate_time_score travel_time congestion hour max_travel_time
      match best with
      | none => some ⟨hour, travel_time, congestion, score⟩
      | some b =>
        if b.score < score then some ⟨hour, travel_time, congestion, score⟩ else best

/-- `find_best_time_in_window` (smart_planner.py lines 78-130). -/
def find_best_time_in_window (route : ℤ → Option RouteData)
    (window_start window_end : ℤ) (max_travel_time : Option ℚ) : Option BestTime :=
  (hoursToCheck window_start window_end).foldl (find_best_step route max_travel_time) none

/-- The result dict of `smart_travel_planner` (smart_planner.py lines
50-69), restricted to the fields the claims mention. -/
structure PlanResult where
  success : Bool
  message : Option String
  optimal_departure_time : Option BestTime

/-- `smart_travel_planner` (smart_planner.py lines 31-76): returns the
failure dict when no best time was found, the success dict otherwise. -/
def smart_travel_planner (route : ℤ → Option RouteData)
    (window_start window_end : ℤ) (max_travel_time : Option ℚ) : PlanResult :=
  match find_best_time_in_window route window_start window_end max_travel_time with
  | none =>
    ⟨false,
     some "No suitable route found within your constraints. Try relaxing some requirements.",
     none⟩
  | some best_time => ⟨true, none, some best_time⟩

lemma find_best_foldl_le (route : ℤ → Option RouteData) (m : ℚ) (hm : m ≠ 0) :
    ∀ (l : List ℤ) (acc : Option BestTime),
      (∀ b, acc = some b → b.travel_time_min ≤ m) →
      ∀ b, l.foldl (find_best_step route (some m)) acc = some b → b.travel_time_min ≤ m := by
  intro l
  induction l with
  | nil =>
    intro acc hacc b hb
    exact hacc b hb
  | cons hd tl ih =>
    intro acc hacc b hb
    simp only [List.foldl_cons] at hb
    refine ih _ ?_ b hb
    intro b' hb'
    unfold find_best_step at hb'
    cases hrd : route hd with
    | none =>
      rw [hrd] at hb'
      exact hacc b' hb'
    | some rd =>
      rw [hrd] at hb'
      dsimp only at hb'
      split_ifs at hb' with hex
      · exact hacc b' hb'
      · have ht : rd.total_time_min ≤ m := by
          unfold truthy_and_exceeds at hex
          simp only [decide_eq_true_eq] at hex
          have : ¬ (m < rd.total_time_min) := fun hlt => hex ⟨hm, hlt⟩
          exact le_of_not_lt this
        cases hacc0 : acc with
        | none =>
          rw [hacc0] at hb'
          simp only [Option.some.injEq] at hb'
          rw [← hb']
          exact ht
        | some b0 =>
          rw [hacc0] at hb'
          dsimp only at hb'
          split_ifs at hb' with hsc
          · simp only [Option.some.injEq] at hb'
            rw [← hb']
            exact ht
          · exact hacc b' (hacc0.trans hb')

lemma find_best_foldl_skip (route : ℤ → Option RouteData) (m : ℚ) (hm : m ≠ 0) :
    ∀ (l : List ℤ) (acc : Option BestTime),
      (∀ h ∈ l, ∀ rd, route h = some rd → m < rd.total_time_min) →
      l.foldl (find_best_step route (some m)) acc = acc := by
  intro l
  induction l with
  | nil =>
    intro acc _
    rfl
  | cons hd tl ih =>
    intro acc hall
    simp only [List.foldl_cons]
    have hstep : find_best_step route (some m) acc hd = acc := by
      unfold find_best_step
      cases hrd : route hd with
      | none => rfl
      | some rd =>
        have hex : truthy_and_exceeds (some m) rd.total_time_min = true := by
          unfold truthy_and_exceeds
          simp only [decide_eq_true_eq]
          exact ⟨hm, hall hd (List.mem_cons_self _ _) rd hrd⟩
        dsimp only
        rw [if_pos hex]
    rw [hstep]
    exact ih acc (fun h hmem rd hrd => hall h (List.mem_cons_of_mem _ hmem) rd hrd)

/-- C3: with a supplied positive max_travel_time, the optimizer never
returns a best candidate whose travel time exceeds the limit (candidates
over the limit are skipped); and when every candidate hour of the window
either fails to route or routes over the limit, the planner returns the
structured failure (success = false with a human-readable message). -/
theorem find_best_time_respects_limit (route : ℤ → Option RouteData)
    (window_start window_end : ℤ) (m : ℚ) (hm : 0 < m) :
    (∀ b, find_best_time_in_window route window_start window_end (some m) = some b →
       b.travel_time_min ≤ m) ∧
    ((∀ h ∈ hoursToCheck window_start window_end, ∀ rd, route h = some rd →
        m < rd.total_time_min) →
      (smart_travel_planner route window_start window_end (some m)).success = false ∧
      (smart_travel_planner route window_start window_end (some m)).message =
        some "No suitable route found within your constraints. Try relaxing some requirements.") := by
  have hm' : m ≠ 0 := ne_of_gt hm
  constructor
  · intro b hb
    exact find_best_foldl_le route m hm' _ none
      (fun b' hb' => Option.noConfusion hb') b hb
  · intro hall
    have hnone : find_best_time_in_window route window_start window_end (some m) = none := by
      unfold find_best_time_in_window
      exact find_best_foldl_skip route m hm' _ none hall
    unfold smart_travel_planner
    rw [hnone]
    exact ⟨rfl, rfl⟩

/-- A route oracle for the C3 witness: every hour routes in 10 minutes at
congestion 0.5. -/
def routeEx : ℤ → Option RouteData := fun _ => some ⟨10, 0.5⟩

/-- C3 witness: window [8, 9] with max_travel_time 0.001 minutes. -/
theorem find_best_time_respects_limit_witness :
    (0 : ℚ) < 0.001 ∧
    ((∀ b, find_best_time_in_window routeEx 8 9 (some 0.001) = some b →
        b.travel_time_min ≤ 0.001) ∧
     ((∀ h ∈ hoursToCheck 8 9, ∀ rd, routeEx h = some rd → (0.001 : ℚ) < rd.total_time_min) →
       (smart_travel_planner routeEx 8 9 (some 0.001)).success = false ∧
       (smart_travel_planner routeEx 8 9 (some 0.001)).message =
         some "No suitable route found within your constraints. Try relaxing some requirements.")) :=
  ⟨by norm_num, find_best_time_respects_limit routeEx 8 9 0.001 (by norm_num)⟩

/- ------------------------------------------------------------------
Prediction cache (src/traffic_core/ml_predictor.py lines 86-113).
The cache key models the f-string `f"{hour}_{day_type}_{road_type}_{length}"`
as the tuple (hour, day_type, road_type, length); the trained
RandomForest regressor together with its feature encoding and its lazy
load/train fallback is abstracted as an arbitrary function `model` of
the four inputs (its value is clamped to [0.05, 0.95] as in the source).
------------------------------------------------------------------ -/

abbrev CacheKey : Type := ℤ × ℤ × String × ℚ

/-- `TrafficPredictor.predict_congestion` (ml_predictor.py lines 86-113):
returns the prediction and the updated cache. -/
def predict_congestion (model : CacheKey → ℚ) (prediction_cache : List (CacheKey × ℚ))
    (key : CacheKey) : ℚ × List (CacheKey × ℚ) :=
  match dict_find prediction_cache key with
  | some v => (v, prediction_cache)
  | none =>
    let prediction := max 0.05 (min 0.95 (model key))
    let cache := prediction_cache ++ [(key, prediction)]
    if cache.length > 10000 then (prediction, [])
    else (prediction, cache)

/-- A sequence of `predict_congestion` calls starting from the empty
cache, tracking the cache state. -/
def run_predictions (model : CacheKey → ℚ) (keys : List CacheKey) : List (CacheKey × ℚ) :=
  keys.foldl (fun cache key => (predict_congestion model cache key).2) []

lemma predict_congestion_cache_le (model : CacheKey → ℚ)
    (cache : List (CacheKey × ℚ)) (key : CacheKey) (hc : cache.length ≤ 10000) :
    ((predict_congestion model cache key).2).length ≤ 10000 := by
  unfold predict_congestion
  cases hf : dict_find cache key with
  | some v => simpa using hc
  | none =>
    dsimp only
    split_ifs with h
    · simp
    · rw [List.length_append]
      simp only [List.length_append, List.length_singleton, gt_iff_lt, not_lt] at h
      simpa using h

/-- C9: the predictor cache is keyed by (hour, day_type, road_type,
length); whenever an insertion would make the cache exceed 10,000
entries it is cleared entirely (no partial eviction), and consequently
after every `predict_congestion` call — over any call sequence starting
from the empty cache — the cache holds at most 10,000 entries. -/
theorem predict_congestion_cache_bounded (model : CacheKey → ℚ) :
    (∀ (cache : List (CacheKey × ℚ)) (key : CacheKey),
       dict_find cache key = none →
       (cache ++ [(key, max 0.05 (min 0.95 (model key)))]).length > 10000 →
       (predict_congestion model cache key).2 = []) ∧
    (∀ keys : List CacheKey, (run_predictions model keys).length ≤ 10000) := by
  constructor
  · intro cache key hmiss hover
    unfold predict_congestion
    simp only [hmiss]
    rw [if_pos hover]
  · intro keys
    unfold run_predictions
    have hinv : ∀ (l : List CacheKey) (acc : List (CacheKey × ℚ)), acc.length ≤ 10000 →
        (l.foldl (fun cache key => (predict_congestion model cache key).2) acc).length ≤ 10000 := by
      intro l
      induction l with
      | nil =>
        intro acc h
        exact h
      | cons hd tl ih =>
        intro acc h
        exact ih _ (predict_congestion_cache_le model acc hd h)
    exact hinv keys [] (by norm_num)
